import Mathlib

/-!
Shallow embedding of the feedback intake/enrichment pipeline, the
authorization guards, the summarization request builder and the
analytics aggregation of the FS-TeamCollab feedback portal
(core/views.py, core/forms.py, core/models.py).

Machine integers do not occur; ids, ratings and departments are Nat.
Database state is an explicit list of Feedback rows; the external
generative-AI service is a record of outcomes (configured flag plus
one outcome per call kind), so every view is a pure function of the
state, the request and the service outcomes.
-/

namespace FeedbackPortal

/-- Model of Python str.strip on a character list: drop whitespace from both ends. -/
def stripList (l : List Char) : List Char :=
  ((l.dropWhile Char.isWhitespace).reverse.dropWhile Char.isWhitespace).reverse

/-- Model of Python str.strip. -/
def pyStrip (s : String) : String := String.mk (stripList s.toList)

/-- Model of Python str.upper. -/
def pyUpper (s : String) : String := String.mk (s.toList.map Char.toUpper)

/-- Model of Python sep.join(parts). -/
def pyJoin (sep : String) : List String → String
  | [] => ""
  | [x] => x
  | x :: y :: xs => x ++ sep ++ pyJoin sep (y :: xs)

/-- Concatenation of rendered pieces (a Python += accumulation loop). -/
def concatMapStr {α : Type*} (f : α → String) : List α → String
  | [] => ""
  | x :: xs => f x ++ concatMapStr f xs

/-- Keys of FeedbackCategory.CATEGORY_CHOICES (core/models.py). -/
inductive CategoryName
  | TEACHING
  | INFRASTRUCTURE
  | TRANSPORT
  | EXTRACURRICULAR
  | STAFF_BEHAVIOUR
  | CANTEEN
  | LIBRARY
deriving DecidableEq

/-- The raw stored value of FeedbackCategory.name. -/
def categoryKey : CategoryName → String
  | .TEACHING => "TEACHING"
  | .INFRASTRUCTURE => "INFRASTRUCTURE"
  | .TRANSPORT => "TRANSPORT"
  | .EXTRACURRICULAR => "EXTRACURRICULAR"
  | .STAFF_BEHAVIOUR => "STAFF_BEHAVIOUR"
  | .CANTEEN => "CANTEEN"
  | .LIBRARY => "LIBRARY"

/-- get_name_display, the human-readable side of CATEGORY_CHOICES. -/
def categoryDisplay : CategoryName → String
  | .TEACHING => "Teaching"
  | .INFRASTRUCTURE => "Infrastructure"
  | .TRANSPORT => "Transport"
  | .EXTRACURRICULAR => "Extracurricular Activities"
  | .STAFF_BEHAVIOUR => "Staff Behaviour"
  | .CANTEEN => "Canteen"
  | .LIBRARY => "Library"

/-- Feedback.INPUT_METHOD_CHOICES keys. -/
inductive InputMethod
  | TEXT
  | AUDIO
deriving DecidableEq

/-- Feedback.RATING_DESCRIPTIVE_LABELS as a partial map; callers apply
their own defaults like the Python dict.get second argument. -/
def RATING_DESCRIPTIVE_LABELS : Nat → Option String
  | 1 => some "Very Poor"
  | 2 => some "Poor"
  | 3 => some "Average"
  | 4 => some "Good"
  | 5 => some "Excellent"
  | _ => none

/-- One row of the Feedback table (core/models.py).  A text_feedback of
"" stands for both the empty string and SQL NULL: the two are
indistinguishable to the views, which only ever test Python truthiness. -/
structure Feedback where
  id : Nat
  student : Nat
  category : CategoryName
  department_at_submission : Option Nat
  rating1 : Option Nat
  rating2 : Option Nat
  rating3 : Option Nat
  rating4 : Option Nat
  rating5 : Option Nat
  input_method : InputMethod
  text_feedback : String
  audio_feedback : Bool
  is_anonymous : Bool
  anonymity_revoked : Bool
  sentiment : Option String
deriving DecidableEq

/-- The category-to-questions map of core/views.py.  The module assigns
HARDCODED_CATEGORY_QUESTIONS twice at top level (lines 91 and 374); the
second assignment shadows the first, so this is the second dict, whose
only difference is the final LIBRARY question. -/
def HARDCODED_CATEGORY_QUESTIONS : CategoryName → List String
  | .TEACHING =>
    ["Clarity of explanations?", "Instructor engagement?", "Course content relevance?",
     "Fairness of grading?", "Overall teaching effectiveness?"]
  | .INFRASTRUCTURE =>
    ["Classroom/lab conditions?", "IT resources (Wi-Fi, PCs)?", "Library resources/space?",
     "Sports facilities?", "Overall campus infrastructure?"]
  | .TRANSPORT =>
    ["Transport punctuality?", "Bus comfort & safety?", "Route accessibility?",
     "Transport staff behavior?", "Overall transport satisfaction?"]
  | .EXTRACURRICULAR =>
    ["Variety/quality of activities?", "Support for student clubs?",
     "Sports/cultural event opportunities?", "Communication about activities?",
     "Overall extracurricular satisfaction?"]
  | .STAFF_BEHAVIOUR =>
    ["Administrative staff professionalism?", "Support staff helpfulness?",
     "Faculty accessibility (non-academic)?", "Fairness in staff dealings?",
     "Overall experience with staff?"]
  | .CANTEEN =>
    ["Food quality/taste?", "Variety of food options?", "Canteen hygiene?",
     "Value for money?", "Overall canteen satisfaction?"]
  | .LIBRARY =>
    ["Book/journal availability?", "Library staff helpfulness?", "Study environment comfort?",
     "Digital resource access?", "Overall effectiveness of library services?"]

/-- Outcomes of the external generative-AI service for one request:
whether GOOGLE_API_KEY is configured, and the outcome of each call kind
(ok carries response.text, error carries the exception message; the
summarize outcome carries response.parts). -/
structure Gateway where
  apiKeyConfigured : Bool
  transcribeService : Except String String
  sentimentService : Except String String
  summarizeService : Except String (List String)

/-- transcribe_audio_with_gemini (core/views.py lines 103-143): None when
the key is unconfigured; on success the stripped response text when
truthy, else a fixed empty-result placeholder; on any exception a
placeholder embedding the error message. -/
def transcribe_audio_with_gemini (apiKeyConfigured : Bool)
    (service : Except String String) : Option String :=
  if apiKeyConfigured = false then none
  else
    match service with
    | Except.error e => some ("[Audio transcription failed due to an error: " ++ e ++ "]")
    | Except.ok t =>
      if t ≠ "" then some (pyStrip t)
      else some "[Transcription failed or audio was empty]"

/-- analyze_sentiment_with_gemini (core/views.py lines 147-180): None when
the key is unconfigured or the text is falsy; None on any exception;
otherwise the stripped uppercased reply when canonical, else NEUTRAL. -/
def analyze_sentiment_with_gemini (apiKeyConfigured : Bool) (text : String)
    (service : Except String String) : Option String :=
  if apiKeyConfigured = false ∨ text = "" then none
  else
    match service with
    | Except.error _ => none
    | Except.ok reply =>
      let sentiment := pyUpper (pyStrip reply)
      if sentiment = "POSITIVE" ∨ sentiment = "NEGATIVE" ∨ sentiment = "NEUTRAL" then
        some sentiment
      else some "NEUTRAL"

/-- Field errors GiveFeedbackForm.clean can add (core/forms.py lines 150-175). -/
inductive FormError
  | text_feedback_required
  | audio_feedback_required
  | at_least_one_required
deriving DecidableEq

/-- The cleaned field values of one GiveFeedbackForm submission.  Field
level cleaning (category existence, rating coercion into 1..5) is done
upstream by the form machinery; this record holds the already-typed
values that reach GiveFeedbackForm.clean. -/
structure SubmitInput where
  category : CategoryName
  input_method : InputMethod
  text_feedback : String
  audio_feedback : Bool
  rating1 : Option Nat
  rating2 : Option Nat
  rating3 : Option Nat
  rating4 : Option Nat
  rating5 : Option Nat
  is_anonymous : Bool
deriving DecidableEq

/-- The five rating slots in order, as give_feedback_view collects them. -/
def inputRatings (inp : SubmitInput) : List (Option Nat) :=
  [inp.rating1, inp.rating2, inp.rating3, inp.rating4, inp.rating5]

/-- GiveFeedbackForm.clean (core/forms.py lines 150-175): the errors the
cross-field validation adds for a submission. -/
def give_feedback_form_errors (inp : SubmitInput) : List FormError :=
  let has_text : Bool := pyStrip inp.text_feedback != ""
  let has_audio : Bool := inp.audio_feedback
  let has_any_rating : Bool := (inputRatings inp).any (fun r => r.isSome)
  (if inp.input_method = InputMethod.TEXT ∧ has_text = false ∧ has_any_rating = false then
    [FormError.text_feedback_required]
  else []) ++
  (if inp.input_method = InputMethod.AUDIO ∧ has_audio = false ∧ has_any_rating = false then
    [FormError.audio_feedback_required]
  else []) ++
  (if has_text = false ∧ has_audio = false ∧ has_any_rating = false then
    [FormError.at_least_one_required]
  else [])

/-- form.is_valid() for GiveFeedbackForm given well-typed fields. -/
def give_feedback_form_is_valid (inp : SubmitInput) : Bool :=
  (give_feedback_form_errors inp).isEmpty

/-- The synthetic_text_parts loop of give_feedback_view (core/views.py
lines 226-230): pair each non-null rating with the question at the same
index, guarded by the explicit bound check of the source. -/
def synthetic_text_parts (questions : List String) : List (Option Nat) → Nat → List String
  | [], _ => []
  | none :: rest, i => synthetic_text_parts questions rest (i + 1)
  | some r :: rest, i =>
    if h : i < questions.length then
      ("For the question '" ++ questions[i] ++ "', the rating given was '" ++
        ((RATING_DESCRIPTIVE_LABELS r).getD "") ++ "'.") :: synthetic_text_parts questions rest (i + 1)
    else synthetic_text_parts questions rest (i + 1)

/-- The synthetic analysis text " ".join(synthetic_text_parts) built by
give_feedback_view when there is no real text but some rating exists. -/
def synthetic_text (cat : CategoryName) (ratings : List (Option Nat)) : String :=
  pyJoin " " (synthetic_text_parts (HARDCODED_CATEGORY_QUESTIONS cat) ratings 0)

/-- The Feedback row as first persisted by give_feedback_view
(form.save(commit=False) plus owner and department snapshot; fields not
on the form keep their model defaults). -/
def base_feedback (actor dept : Nat) (inp : SubmitInput) (newId : Nat) : Feedback :=
  { id := newId
    student := actor
    category := inp.category
    department_at_submission := some dept
    rating1 := inp.rating1
    rating2 := inp.rating2
    rating3 := inp.rating3
    rating4 := inp.rating4
    rating5 := inp.rating5
    input_method := inp.input_method
    text_feedback := inp.text_feedback
    audio_feedback := inp.audio_feedback
    is_anonymous := inp.is_anonymous
    anonymity_revoked := false
    sentiment := none }

/-- The transcription step of give_feedback_view (core/views.py lines
206-211): for an AUDIO submission with an audio file, the row text and
the analysis text become the transcript when the helper returned a
truthy value; otherwise both stay as submitted. -/
def transcribe_step (fb0 : Feedback) (gw : Gateway) : Feedback × String :=
  if fb0.input_method = InputMethod.AUDIO ∧ fb0.audio_feedback = true then
    match transcribe_audio_with_gemini gw.apiKeyConfigured gw.transcribeService with
    | some t => if t ≠ "" then ({ fb0 with text_feedback := t }, t) else (fb0, fb0.text_feedback)
    | none => (fb0, fb0.text_feedback)
  else (fb0, fb0.text_feedback)

/-- The text_to_analyze determination of give_feedback_view (core/views.py
lines 213-233): keep real text when truthy after strip, otherwise
synthesize from the ratings when any exists. -/
def analysis_text (fb1 : Feedback) (t1 : String) : String :=
  let ratings_data := [fb1.rating1, fb1.rating2, fb1.rating3, fb1.rating4, fb1.rating5]
  let has_text_content : Bool := (t1 != "") && (pyStrip t1 != "")
  let has_any_rating : Bool := ratings_data.any (fun r => r.isSome)
  if has_text_content = false ∧ has_any_rating = true then
    synthetic_text fb1.category ratings_data
  else t1

/-- The sentiment step of give_feedback_view (core/views.py lines
235-240): when the analysis text is truthy after strip, call
analyze_sentiment_with_gemini and store a truthy result.  The second
component records the argument of that call, none when skipped. -/
def sentiment_step (fb1 : Feedback) (t2 : String) (gw : Gateway) : Feedback × Option String :=
  if (t2 != "") && (pyStrip t2 != "") then
    match analyze_sentiment_with_gemini gw.apiKeyConfigured t2 gw.sentimentService with
    | some s => if s ≠ "" then ({ fb1 with sentiment := some s }, some t2) else (fb1, some t2)
    | none => (fb1, some t2)
  else (fb1, none)

/-- The whole enrichment phase of give_feedback_view (core/views.py lines
205-240) applied to the freshly saved row. -/
def enrich_feedback (fb0 : Feedback) (gw : Gateway) : Feedback × Option String :=
  let step1 := transcribe_step fb0 gw
  sentiment_step step1.1 (analysis_text step1.1 step1.2) gw

/-- What give_feedback_view leaves behind: the new database state, whether
the submission succeeded, and the text handed to the sentiment call. -/
structure SubmitResult where
  state : List Feedback
  success : Bool
  analyzedText : Option String
deriving DecidableEq

/-- The POST path of give_feedback_view (core/views.py lines 196-248) for
a logged-in student whose profile has department dept: an invalid form
re-renders with errors and persists nothing; a valid one persists the
base row and then the enriched row (two sequential writes to the same
row, shown here as the final row value). -/
def give_feedback_view (state : List Feedback) (actor dept : Nat) (inp : SubmitInput)
    (gw : Gateway) (newId : Nat) : SubmitResult :=
  if give_feedback_form_is_valid inp then
    let er := enrich_feedback (base_feedback actor dept inp newId) gw
    { state := state ++ [er.1], success := true, analyzedText := er.2 }
  else { state := state, success := false, analyzedText := none }

/-- Outcome of delete_feedback_view or revoke_anonymity_view. -/
inductive MutationResponse
  | notFoundResp
  | authError
  | warningNotAnonymous
  | success
deriving DecidableEq

/-- delete_feedback_view (core/views.py lines 270-279): 404 when the row
does not exist, an authorization error leaving the state untouched when
the actor is not the owning student, otherwise the row is deleted. -/
def delete_feedback_view (state : List Feedback) (actor fid : Nat) :
    List Feedback × MutationResponse :=
  match state.find? (fun f => f.id == fid) with
  | none => (state, MutationResponse.notFoundResp)
  | some fb =>
    if fb.student ≠ actor then (state, MutationResponse.authError)
    else (state.filter (fun f => f.id != fid), MutationResponse.success)

/-- revoke_anonymity_view (core/views.py lines 356-370): 404 when absent,
authorization error for a non-owner, a warning without mutation when the
feedback was not submitted anonymously, otherwise anonymity_revoked is
set to True on that row. -/
def revoke_anonymity_view (state : List Feedback) (actor fid : Nat) :
    List Feedback × MutationResponse :=
  match state.find? (fun f => f.id == fid) with
  | none => (state, MutationResponse.notFoundResp)
  | some fb =>
    if fb.student ≠ actor then (state, MutationResponse.authError)
    else if fb.is_anonymous = false then (state, MutationResponse.warningNotAnonymous)
    else
      (state.map (fun f => if f.id = fid then { f with anonymity_revoked := true } else f),
       MutationResponse.success)

/-- One rating line of the summarization context (core/views.py lines
418-424), using the "N/A" default of that call site. -/
def render_rating_line (q : String) (r : Option Nat) : String :=
  match r with
  | some v =>
    "  - \"" ++ q ++ "\": " ++ ((RATING_DESCRIPTIVE_LABELS v).getD "N/A") ++
      " (" ++ toString v ++ "/5)\n"
  | none => "  - \"" ++ q ++ "\": Not Rated\n"

/-- The enumerate loop over the five rating slots in the summarization
context builder.  The source indexes entry_questions[i] directly; every
category list has exactly five entries, so the getD default is never
taken for the states reachable from the model. -/
def render_rating_lines (qs : List String) : List (Option Nat) → Nat → String
  | [], _ => ""
  | r :: rest, i => render_rating_line (qs.getD i "") r ++ render_rating_lines qs rest (i + 1)

/-- The context_str built for one feedback entry by summarize_feedback_view
(core/views.py lines 410-428).  HARDCODED_CATEGORY_QUESTIONS.get never
misses (all seven categories are keys) and each list is truthy, so the
Ratings Given block is always rendered. -/
def render_feedback_entry (e : Feedback) : String :=
  let base := "Feedback Entry #" ++ toString e.id ++ ":\n" ++
    "- Category: " ++ categoryDisplay e.category ++ "\n"
  let withRatings := base ++ "- Ratings Given:\n" ++
    render_rating_lines (HARDCODED_CATEGORY_QUESTIONS e.category)
      [e.rating1, e.rating2, e.rating3, e.rating4, e.rating5] 0
  if (e.text_feedback != "") && (pyStrip e.text_feedback != "") then
    withRatings ++ "- Student's Comment: \"" ++ pyStrip e.text_feedback ++ "\"\n"
  else withRatings

/-- Outcome of summarize_feedback_view, by HTTP shape. -/
inductive SummarizeResponse
  | unconfigured
  | badRequest
  | authErrorResp
  | summary (text : String)
  | serviceError
deriving DecidableEq

/-- The sentinel summary returned when the concatenated context is empty. -/
def NO_CONTENT_SUMMARY : String :=
  "No feedback content (neither text nor ratings) was found in the selected entries to summarize."

/-- The sentinel summary returned when response.parts is empty. -/
def BLOCKED_SUMMARY : String :=
  "The AI was unable to generate a summary for this content, possibly due to safety filters or other restrictions."

/-- The portion of summarize_feedback_view after the authorization check
(core/views.py lines 407-466): render the context over the selected
entries, return the nothing-to-summarize sentinel when its strip is
falsy, otherwise call the Gateway.  The Bool records whether the Gateway
summarize call was made. -/
def summarize_stage (entries : List Feedback) (gw : Gateway) : SummarizeResponse × Bool :=
  let ctx := concatMapStr (fun e => render_feedback_entry e ++ "\n---\n\n") entries
  if pyStrip ctx = "" then (SummarizeResponse.summary NO_CONTENT_SUMMARY, false)
  else
    match gw.summarizeService with
    | Except.error _ => (SummarizeResponse.serviceError, true)
    | Except.ok parts =>
      if parts ≠ [] then (SummarizeResponse.summary (String.join parts), true)
      else (SummarizeResponse.summary BLOCKED_SUMMARY, true)

/-- summarize_feedback_view (core/views.py lines 389-466) for a
coordinator of department coordDept: 503 when the key is unconfigured,
bad request for a missing or empty id list, 403 when the count of rows
matching the ids inside the department differs from the id count,
else the summarization stage.  The Bool records whether the Gateway
summarize call was made. -/
def summarize_feedback_view (state : List Feedback) (coordDept : Nat) (ids : List Nat)
    (gw : Gateway) : SummarizeResponse × Bool :=
  if gw.apiKeyConfigured = false then (SummarizeResponse.unconfigured, false)
  else if ids = [] then (SummarizeResponse.badRequest, false)
  else
    let entries := state.filter
      (fun f => ids.contains f.id && f.department_at_submission == some coordDept)
    if entries.length ≠ ids.length then (SummarizeResponse.authErrorResp, false)
    else summarize_stage entries gw

/-- The display-name lookup category_names_map.get(name, name) of
analytics_view (core/views.py lines 517-519). -/
def display_of_key (name : String) : String :=
  if name = "TEACHING" then "Teaching"
  else if name = "INFRASTRUCTURE" then "Infrastructure"
  else if name = "TRANSPORT" then "Transport"
  else if name = "EXTRACURRICULAR" then "Extracurricular Activities"
  else if name = "STAFF_BEHAVIOUR" then "Staff Behaviour"
  else if name = "CANTEEN" then "Canteen"
  else if name = "LIBRARY" then "Library"
  else name

/-- Lexicographic comparison of character lists by code point, the
collation of the ORDER BY over the ASCII category names. -/
def charListLe : List Char → List Char → Bool
  | [], _ => true
  | _ :: _, [] => false
  | a :: as, b :: bs =>
    if a.toNat < b.toNat then true
    else if b.toNat < a.toNat then false
    else charListLe as bs

/-- String comparison for the ORDER BY collation. -/
def nameLe (a b : String) : Bool := charListLe a.toList b.toList

/-- Insertion into an ascending list under nameLe. -/
def ordered_insert_name (a : String) : List String → List String
  | [] => [a]
  | b :: l => if nameLe a b then a :: b :: l else b :: ordered_insert_name a l

/-- Ascending insertion sort under nameLe, the ORDER BY of the query. -/
def sort_names : List String → List String
  | [] => []
  | a :: l => ordered_insert_name a (sort_names l)

/-- The sentiment-by-category aggregation of analytics_view (core/views.py
lines 497-522): restrict the department rows to POSITIVE or NEGATIVE
sentiment, group by the raw category name ordered ascending, count each
label inside the group, and emit (display name, positive, negative)
exactly as the bar-chart lists are zipped. -/
def sentiment_by_category (state : List Feedback) (dept : Nat) : List (String × Nat × Nat) :=
  let rows := state.filter (fun f =>
    f.department_at_submission == some dept &&
      (f.sentiment == some "POSITIVE" || f.sentiment == some "NEGATIVE"))
  let names := (rows.map (fun f => categoryKey f.category)).dedup
  let sortedNames := sort_names names
  sortedNames.map (fun n =>
    (display_of_key n,
     (rows.filter (fun f => categoryKey f.category == n && f.sentiment == some "POSITIVE")).length,
     (rows.filter (fun f => categoryKey f.category == n && f.sentiment == some "NEGATIVE")).length))

/-- The feedback-mutating operations of the system, for the lifecycle
claims: submission (give_feedback_view), deletion (delete_feedback_view)
and anonymity revocation (revoke_anonymity_view). -/
inductive Op
  | submit (actor dept : Nat) (inp : SubmitInput) (gw : Gateway) (newId : Nat)
  | deleteFb (actor fid : Nat)
  | revoke (actor fid : Nat)

/-- State transition made by one operation. -/
def applyOp (s : List Feedback) : Op → List Feedback
  | Op.submit actor dept inp gw newId => (give_feedback_view s actor dept inp gw newId).state
  | Op.deleteFb actor fid => (delete_feedback_view s actor fid).1
  | Op.revoke actor fid => (revoke_anonymity_view s actor fid).1

/-- Well-formedness of an operation against a state: a submission is
handed a fresh primary key, as the database does. -/
def opWF (s : List Feedback) : Op → Prop
  | Op.submit _ _ _ _ newId => ∀ fb ∈ s, fb.id ≠ newId
  | Op.deleteFb _ _ => True
  | Op.revoke _ _ => True

/-! Concrete fixtures used by witnesses and counterexamples. -/

/-- A service record with everything configured and succeeding. -/
def gwOk : Gateway :=
  { apiKeyConfigured := true
    transcribeService := Except.ok "hello"
    sentimentService := Except.ok "positive"
    summarizeService := Except.ok ["- Point 1"] }

/-- A configured service whose transcription call raises an exception. -/
def gwTranscribeErr : Gateway :=
  { apiKeyConfigured := true
    transcribeService := Except.error "boom"
    sentimentService := Except.ok "POSITIVE"
    summarizeService := Except.ok ["- Point 1"] }

/-- A configured service whose sentiment call raises an exception. -/
def gwSentimentErr : Gateway :=
  { apiKeyConfigured := true
    transcribeService := Except.ok "hello"
    sentimentService := Except.error "down"
    summarizeService := Except.ok ["- Point 1"] }

/-- A plain stored row: text submission, no ratings, not anonymous. -/
def sampleRow (i student : Nat) (c : CategoryName) (dept : Option Nat)
    (senti : Option String) (text : String) : Feedback :=
  { id := i
    student := student
    category := c
    department_at_submission := dept
    rating1 := none
    rating2 := none
    rating3 := none
    rating4 := none
    rating5 := none
    input_method := InputMethod.TEXT
    text_feedback := text
    audio_feedback := false
    is_anonymous := false
    anonymity_revoked := false
    sentiment := senti }

/-- A whitespace-only, rating-free, audio-free submission. -/
def inpEmpty : SubmitInput :=
  { category := CategoryName.TEACHING
    input_method := InputMethod.TEXT
    text_feedback := "   "
    audio_feedback := false
    rating1 := none
    rating2 := none
    rating3 := none
    rating4 := none
    rating5 := none
    is_anonymous := false }

/-- The C4 scenario submission: empty text, ratings 5 and 4, TEACHING. -/
def inpRatingsOnly : SubmitInput :=
  { category := CategoryName.TEACHING
    input_method := InputMethod.TEXT
    text_feedback := ""
    audio_feedback := false
    rating1 := some 5
    rating2 := some 4
    rating3 := none
    rating4 := none
    rating5 := none
    is_anonymous := false }

/-- An AUDIO submission carrying an audio file and original text. -/
def inpAudio : SubmitInput :=
  { category := CategoryName.TEACHING
    input_method := InputMethod.AUDIO
    text_feedback := "orig"
    audio_feedback := true
    rating1 := none
    rating2 := none
    rating3 := none
    rating4 := none
    rating5 := none
    is_anonymous := false }

/-- An AUDIO-mode submission carrying no audio file, empty text and one
rating: the rating alone satisfies validation, and transcription is
skipped because no file is attached, leaving the analysis text empty. -/
def inpAudioRatingsOnly : SubmitInput :=
  { category := CategoryName.CANTEEN
    input_method := InputMethod.AUDIO
    text_feedback := ""
    audio_feedback := false
    rating1 := none
    rating2 := some 2
    rating3 := none
    rating4 := none
    rating5 := none
    is_anonymous := false }

/-- Department 1 analytics scenario: three TEACHING rows (two POSITIVE,
one NEGATIVE) and one LIBRARY row (NEUTRAL). -/
def analyticsState : List Feedback :=
  [sampleRow 1 10 CategoryName.TEACHING (some 1) (some "POSITIVE") "t",
   sampleRow 2 10 CategoryName.TEACHING (some 1) (some "POSITIVE") "t",
   sampleRow 3 10 CategoryName.TEACHING (some 1) (some "NEGATIVE") "t",
   sampleRow 4 10 CategoryName.LIBRARY (some 1) (some "NEUTRAL") "t"]

/-- The analytics scenario extended with a CANTEEN POSITIVE row in the
department and a foreign-department TEACHING POSITIVE row. -/
def analyticsStateB : List Feedback :=
  analyticsState ++
    [sampleRow 5 10 CategoryName.CANTEEN (some 1) (some "POSITIVE") "t",
     sampleRow 6 10 CategoryName.TEACHING (some 2) (some "POSITIVE") "t"]

/-! Helper lemmas about the Python string model. -/

lemma toList_append (a b : String) : (a ++ b).toList = a.toList ++ b.toList := by
  simp [String.toList]

lemma mem_dropWhile_of_not (p : Char → Bool) {l : List Char} {c : Char}
    (hc : c ∈ l) (hp : p c = false) : c ∈ l.dropWhile p := by
  induction l with
  | nil => cases hc
  | cons a l ih =>
    rw [List.dropWhile_cons]
    by_cases ha : p a = true
    · rcases List.mem_cons.mp hc with rfl | hc'
      · rw [ha] at hp; cases hp
      · simpa [ha] using ih hc'
    · simp only [ha, if_false]
      exact hc

lemma stripList_ne_nil_of_mem {l : List Char} {c : Char}
    (hc : c ∈ l) (hw : c.isWhitespace = false) : stripList l ≠ [] := by
  intro h
  have h1 : c ∈ l.dropWhile Char.isWhitespace := mem_dropWhile_of_not _ hc hw
  have h2 := List.mem_reverse.mpr h1
  have h3 := mem_dropWhile_of_not Char.isWhitespace h2 hw
  have h4 := List.mem_reverse.mpr h3
  rw [show ((l.dropWhile Char.isWhitespace).reverse.dropWhile Char.isWhitespace).reverse
      = stripList l from rfl, h] at h4
  cases h4

lemma pyStrip_eq_empty_iff (s : String) : pyStrip s = "" ↔ stripList s.toList = [] := by
  simp [pyStrip, String.ext_iff]

lemma pyStrip_ne_empty_of_mem {s : String} {c : Char}
    (hc : c ∈ s.toList) (hw : c.isWhitespace = false) : pyStrip s ≠ "" := by
  rw [Ne, pyStrip_eq_empty_iff]
  exact stripList_ne_nil_of_mem hc hw

lemma mem_toList_pyJoin_head {sep s : String} {rest : List String} {c : Char}
    (h : c ∈ s.toList) : c ∈ (pyJoin sep (s :: rest)).toList := by
  cases rest with
  | nil => simpa [pyJoin] using h
  | cons y ys => simp [pyJoin, toList_append, List.mem_append]; tauto

/-! Helper lemmas about rows, ids and lookups. -/

lemma eq_of_mem_nodup_ids {l : List Feedback} {a b : Feedback}
    (hn : (l.map Feedback.id).Nodup) (ha : a ∈ l) (hb : b ∈ l) (hid : a.id = b.id) : a = b := by
  induction l with
  | nil => cases ha
  | cons x l ih =>
    simp only [List.map_cons, List.nodup_cons] at hn
    rcases List.mem_cons.mp ha with rfl | ha' <;> rcases List.mem_cons.mp hb with rfl | hb'
    · rfl
    · exact absurd (hid ▸ List.mem_map_of_mem Feedback.id hb') hn.1
    · exact absurd (hid ▸ List.mem_map_of_mem Feedback.id ha') (by simpa [hid] using hn.1)
    · exact ih hn.2 ha' hb'

lemma find?_id_eq_some {l : List Feedback} {fb : Feedback} {fid : Nat}
    (hn : (l.map Feedback.id).Nodup) (hm : fb ∈ l) (hid : fb.id = fid) :
    l.find? (fun f => f.id == fid) = some fb := by
  induction l with
  | nil => cases hm
  | cons x l ih =>
    simp only [List.map_cons, List.nodup_cons] at hn
    rcases List.mem_cons.mp hm with rfl | hm'
    · simp [List.find?_cons, hid]
    · have hx : (x.id == fid) = false := by
        simp only [beq_eq_false_iff_ne, Ne]
        intro he
        exact hn.1 (by rw [he, ← hid]; exact List.mem_map_of_mem Feedback.id hm')
      rw [List.find?_cons, hx]
      exact ih hn.2 hm'

/-! Helper lemmas about the enrichment stages. -/

lemma transcribe_step_fields (fb0 : Feedback) (gw : Gateway) :
    (transcribe_step fb0 gw).1.id = fb0.id ∧
    (transcribe_step fb0 gw).1.student = fb0.student ∧
    (transcribe_step fb0 gw).1.category = fb0.category ∧
    (transcribe_step fb0 gw).1.department_at_submission = fb0.department_at_submission ∧
    (transcribe_step fb0 gw).1.rating1 = fb0.rating1 ∧
    (transcribe_step fb0 gw).1.rating2 = fb0.rating2 ∧
    (transcribe_step fb0 gw).1.rating3 = fb0.rating3 ∧
    (transcribe_step fb0 gw).1.rating4 = fb0.rating4 ∧
    (transcribe_step fb0 gw).1.rating5 = fb0.rating5 ∧
    (transcribe_step fb0 gw).1.input_method = fb0.input_method ∧
    (transcribe_step fb0 gw).1.audio_feedback = fb0.audio_feedback ∧
    (transcribe_step fb0 gw).1.is_anonymous = fb0.is_anonymous ∧
    (transcribe_step fb0 gw).1.anonymity_revoked = fb0.anonymity_revoked ∧
    (transcribe_step fb0 gw).1.sentiment = fb0.sentiment := by
  unfold transcribe_step
  repeat' split
  all_goals simp

lemma sentiment_step_fields (fb1 : Feedback) (t2 : String) (gw : Gateway) :
    (sentiment_step fb1 t2 gw).1.id = fb1.id ∧
    (sentiment_step fb1 t2 gw).1.student = fb1.student ∧
    (sentiment_step fb1 t2 gw).1.category = fb1.category ∧
    (sentiment_step fb1 t2 gw).1.department_at_submission = fb1.department_at_submission ∧
    (sentiment_step fb1 t2 gw).1.rating1 = fb1.rating1 ∧
    (sentiment_step fb1 t2 gw).1.rating2 = fb1.rating2 ∧
    (sentiment_step fb1 t2 gw).1.rating3 = fb1.rating3 ∧
    (sentiment_step fb1 t2 gw).1.rating4 = fb1.rating4 ∧
    (sentiment_step fb1 t2 gw).1.rating5 = fb1.rating5 ∧
    (sentiment_step fb1 t2 gw).1.input_method = fb1.input_method ∧
    (sentiment_step fb1 t2 gw).1.audio_feedback = fb1.audio_feedback ∧
    (sentiment_step fb1 t2 gw).1.is_anonymous = fb1.is_anonymous ∧
    (sentiment_step fb1 t2 gw).1.anonymity_revoked = fb1.anonymity_revoked ∧
    (sentiment_step fb1 t2 gw).1.text_feedback = fb1.text_feedback := by
  unfold sentiment_step
  repeat' split
  all_goals simp

lemma enrich_feedback_id (fb0 : Feedback) (gw : Gateway) :
    (enrich_feedback fb0 gw).1.id = fb0.id := by
  unfold enrich_feedback
  rw [(sentiment_step_fields _ _ _).1]
  exact (transcribe_step_fields _ _).1

lemma enrich_feedback_revoked (fb0 : Feedback) (gw : Gateway) :
    (enrich_feedback fb0 gw).1.anonymity_revoked = fb0.anonymity_revoked := by
  unfold enrich_feedback
  rw [(sentiment_step_fields _ _ _).2.2.2.2.2.2.2.2.2.2.2.2.1]
  exact (transcribe_step_fields _ _).2.2.2.2.2.2.2.2.2.2.2.2.1

lemma give_feedback_view_state_shape (state : List Feedback) (a d : Nat) (inp : SubmitInput)
    (gw : Gateway) (nid : Nat) :
    (give_feedback_view state a d inp gw nid).state = state ∨
    (give_feedback_view state a d inp gw nid).state =
      state ++ [(enrich_feedback (base_feedback a d inp nid) gw).1] := by
  unfold give_feedback_view
  split
  · right; rfl
  · left; rfl

/-! Helper lemmas about the synthetic analysis text. -/

lemma synthetic_text_parts_cons {qs : List String} :
    ∀ (rs : List (Option Nat)) (i : Nat), rs.any (fun r => r.isSome) = true →
    i + rs.length ≤ qs.length →
    ∃ s rest, synthetic_text_parts qs rs i = s :: rest ∧ 'F' ∈ s.toList := by
  intro rs
  induction rs with
  | nil => intro i h _; simp at h
  | cons r rest ih =>
    intro i hany hlen
    match r with
    | some v =>
      have hi : i < qs.length := by
        simp only [List.length_cons] at hlen; omega
      refine ⟨"For the question '" ++ qs.get ⟨i, hi⟩ ++ "', the rating given was '" ++
        ((RATING_DESCRIPTIVE_LABELS v).getD "") ++ "'.",
        synthetic_text_parts qs rest (i + 1), ?_, ?_⟩
      · rw [synthetic_text_parts, dif_pos hi]
        simp [List.get_eq_getElem]
      · have hF : 'F' ∈ ("For the question '" : String).toList := by decide
        simp only [toList_append, List.mem_append]
        tauto
    | none =>
      have hany' : rest.any (fun r => r.isSome) = true := by
        simpa using hany
      have hlen' : (i + 1) + rest.length ≤ qs.length := by
        simp only [List.length_cons] at hlen; omega
      obtain ⟨s, rs', heq, hF⟩ := ih (i + 1) hany' hlen'
      exact ⟨s, rs', by rw [synthetic_text_parts]; exact heq, hF⟩

lemma questions_length (cat : CategoryName) :
    (HARDCODED_CATEGORY_QUESTIONS cat).length = 5 := by
  cases cat <;> rfl

lemma pyStrip_synthetic_text_ne_empty {cat : CategoryName} {rs : List (Option Nat)}
    (hany : rs.any (fun r => r.isSome) = true) (hlen : rs.length ≤ 5) :
    pyStrip (synthetic_text cat rs) ≠ "" := by
  obtain ⟨s, rest, heq, hF⟩ := synthetic_text_parts_cons rs 0
    hany (by rw [questions_length cat]; omega)
  unfold synthetic_text
  rw [heq]
  exact pyStrip_ne_empty_of_mem (mem_toList_pyJoin_head hF) (by decide)

lemma ne_empty_of_pyStrip_ne_empty {s : String} (h : pyStrip s ≠ "") : s ≠ "" := by
  intro he
  exact h (by rw [he]; rfl)

/-! Claim theorems. -/

/-- C1: a feedback submission whose text is empty or whitespace, with no
audio attached and all five ratings null, is rejected by
GiveFeedbackForm.clean with a validation error, and give_feedback_view
persists nothing: the state is returned unchanged with no success. -/
theorem c1_empty_submission_rejected (state : List Feedback) (actor dept : Nat)
    (inp : SubmitInput) (gw : Gateway) (newId : Nat)
    (htext : pyStrip inp.text_feedback = "") (haudio : inp.audio_feedback = false)
    (h1 : inp.rating1 = none) (h2 : inp.rating2 = none) (h3 : inp.rating3 = none)
    (h4 : inp.rating4 = none) (h5 : inp.rating5 = none) :
    give_feedback_form_errors inp ≠ [] ∧
    give_feedback_form_is_valid inp = false ∧
    give_feedback_view state actor dept inp gw newId =
      { state := state, success := false, analyzedText := none } := by
  have herr : give_feedback_form_errors inp ≠ [] := by
    unfold give_feedback_form_errors
    simp only [inputRatings, h1, h2, h3, h4, h5, htext, haudio]
    cases hm : inp.input_method <;> simp [hm]
  have hvalid : give_feedback_form_is_valid inp = false := by
    unfold give_feedback_form_is_valid
    cases hE : give_feedback_form_errors inp with
    | nil => exact absurd hE herr
    | cons a l => rfl
  refine ⟨herr, hvalid, ?_⟩
  unfold give_feedback_view
  rw [hvalid]
  rfl

/-- Witness for C1 at a concrete whitespace-only submission. -/
theorem c1_witness :
    give_feedback_form_errors inpEmpty ≠ [] ∧
    give_feedback_form_is_valid inpEmpty = false ∧
    give_feedback_view [] 7 1 inpEmpty gwOk 1 =
      { state := [], success := false, analyzedText := none } :=
  c1_empty_submission_rejected [] 7 1 inpEmpty gwOk 1 (by decide) rfl rfl rfl rfl rfl rfl

/-- C6: deleting a Feedback row by any actor other than its owning
student fails with an authorization denial and leaves the state
untouched (no write happens), and the deletion succeeds only when the
actor is the owning student, in which case the row is removed. -/
theorem c6_delete_requires_ownership (state : List Feedback) (actor fid : Nat) (fb : Feedback)
    (hn : (state.map Feedback.id).Nodup) (hm : fb ∈ state) (hid : fb.id = fid) :
    (fb.student ≠ actor →
      delete_feedback_view state actor fid = (state, MutationResponse.authError)) ∧
    (fb.student = actor →
      (delete_feedback_view state actor fid).2 = MutationResponse.success ∧
        fb ∉ (delete_feedback_view state actor fid).1) ∧
    ((delete_feedback_view state actor fid).2 = MutationResponse.success →
      fb.student = actor) := by
  have hfind := find?_id_eq_some hn hm hid
  unfold delete_feedback_view
  rw [hfind]
  dsimp only
  refine ⟨?_, ?_, ?_⟩
  · intro hne
    rw [if_pos hne]
  · intro heq
    rw [if_neg (by simp [heq])]
    refine ⟨rfl, ?_⟩
    simp [List.mem_filter, hid]
  · intro hs
    by_contra hne
    rw [if_pos hne] at hs
    cases hs

/-- Witness for C6: actor 99 cannot delete student 10's row; student 10 can. -/
theorem c6_witness :
    ((sampleRow 1 10 CategoryName.TEACHING (some 1) none "t").student ≠ 99 →
      delete_feedback_view [sampleRow 1 10 CategoryName.TEACHING (some 1) none "t"] 99 1 =
        ([sampleRow 1 10 CategoryName.TEACHING (some 1) none "t"], MutationResponse.authError)) ∧
    ((sampleRow 1 10 CategoryName.TEACHING (some 1) none "t").student = 10 →
      (delete_feedback_view [sampleRow 1 10 CategoryName.TEACHING (some 1) none "t"] 10 1).2 =
          MutationResponse.success ∧
        sampleRow 1 10 CategoryName.TEACHING (some 1) none "t" ∉
          (delete_feedback_view [sampleRow 1 10 CategoryName.TEACHING (some 1) none "t"] 10 1).1) ∧
    ((delete_feedback_view [sampleRow 1 10 CategoryName.TEACHING (some 1) none "t"] 99 1).2 =
        MutationResponse.success →
      (sampleRow 1 10 CategoryName.TEACHING (some 1) none "t").student = 99) :=
  ⟨(c6_delete_requires_ownership [sampleRow 1 10 CategoryName.TEACHING (some 1) none "t"] 99 1
      (sampleRow 1 10 CategoryName.TEACHING (some 1) none "t") (by decide) (by decide) rfl).1,
   (c6_delete_requires_ownership [sampleRow 1 10 CategoryName.TEACHING (some 1) none "t"] 10 1
      (sampleRow 1 10 CategoryName.TEACHING (some 1) none "t") (by decide) (by decide) rfl).2.1,
   (c6_delete_requires_ownership [sampleRow 1 10 CategoryName.TEACHING (some 1) none "t"] 99 1
      (sampleRow 1 10 CategoryName.TEACHING (some 1) none "t") (by decide) (by decide) rfl).2.2⟩

/-- C10: when the owning student asks to revoke anonymity on a Feedback
whose is_anonymous is false, revoke_anonymity_view reports a warning and
performs no mutation: the state is returned unchanged, so
anonymity_revoked stays false. -/
theorem c10_revoke_non_anonymous_warning (state : List Feedback) (actor fid : Nat)
    (fb : Feedback) (hn : (state.map Feedback.id).Nodup) (hm : fb ∈ state) (hid : fb.id = fid)
    (howner : fb.student = actor) (hanon : fb.is_anonymous = false) :
    revoke_anonymity_view state actor fid = (state, MutationResponse.warningNotAnonymous) := by
  have hfind := find?_id_eq_some hn hm hid
  unfold revoke_anonymity_view
  rw [hfind]
  dsimp only
  rw [if_neg (by simp [howner]), if_pos hanon]

/-- Witness for C10 on a concrete non-anonymous row and its owner. -/
theorem c10_witness :
    revoke_anonymity_view [sampleRow 1 10 CategoryName.TEACHING (some 1) none "t"] 10 1 =
      ([sampleRow 1 10 CategoryName.TEACHING (some 1) none "t"],
        MutationResponse.warningNotAnonymous) :=
  c10_revoke_non_anonymous_warning [sampleRow 1 10 CategoryName.TEACHING (some 1) none "t"] 10 1
    (sampleRow 1 10 CategoryName.TEACHING (some 1) none "t") (by decide) (by decide) rfl rfl rfl

lemma error_placeholder_ne_empty (e : String) :
    ("[Audio transcription failed due to an error: " ++ e ++ "]") ≠ "" := by
  intro h
  have h2 := congrArg String.toList h
  rw [toList_append, toList_append] at h2
  have h3 := (List.append_eq_nil.mp h2).1
  have h4 := (List.append_eq_nil.mp h3).1
  exact (by decide : ("[Audio transcription failed due to an error: " : String).toList ≠ []) h4

lemma enrich_feedback_text (fb0 : Feedback) (gw : Gateway) :
    (enrich_feedback fb0 gw).1.text_feedback = (transcribe_step fb0 gw).1.text_feedback := by
  unfold enrich_feedback
  exact (sentiment_step_fields _ _ _).2.2.2.2.2.2.2.2.2.2.2.2.2

lemma transcribe_step_text_cases (fb0 : Feedback) (gw : Gateway)
    (hmode : fb0.input_method = InputMethod.AUDIO) (haudio : fb0.audio_feedback = true) :
    (gw.apiKeyConfigured = false →
      (transcribe_step fb0 gw).1.text_feedback = fb0.text_feedback) ∧
    (∀ e, gw.apiKeyConfigured = true → gw.transcribeService = Except.error e →
      (transcribe_step fb0 gw).1.text_feedback =
        "[Audio transcription failed due to an error: " ++ e ++ "]") ∧
    (gw.apiKeyConfigured = true → gw.transcribeService = Except.ok "" →
      (transcribe_step fb0 gw).1.text_feedback =
        "[Transcription failed or audio was empty]") := by
  refine ⟨?_, ?_, ?_⟩
  · intro hkey
    simp [transcribe_step, transcribe_audio_with_gemini, hkey, hmode, haudio]
  · intro e hkey hsvc
    simp [transcribe_step, transcribe_audio_with_gemini, hkey, hsvc, hmode, haudio,
      error_placeholder_ne_empty e]
  · intro hkey hsvc
    simp [transcribe_step, transcribe_audio_with_gemini, hkey, hsvc, hmode, haudio]

/-- C5 (amended): for an AUDIO submission with an audio file, the
submission always succeeds and the base row is persisted whatever the
transcription outcome; when the service is misconfigured (no API key)
text_feedback is left as originally submitted with no placeholder, while
on a service exception or an empty transcription result text_feedback is
replaced by the visible placeholder string describing the failure. -/
theorem c5_transcription_failure_nonfatal (state : List Feedback) (actor dept : Nat)
    (inp : SubmitInput) (gw : Gateway) (newId : Nat)
    (hmode : inp.input_method = InputMethod.AUDIO) (haudio : inp.audio_feedback = true) :
    ∃ fb, (give_feedback_view state actor dept inp gw newId).state = state ++ [fb] ∧
      (give_feedback_view state actor dept inp gw newId).success = true ∧
      (gw.apiKeyConfigured = false → fb.text_feedback = inp.text_feedback) ∧
      (∀ e, gw.apiKeyConfigured = true → gw.transcribeService = Except.error e →
        fb.text_feedback = "[Audio transcription failed due to an error: " ++ e ++ "]") ∧
      (gw.apiKeyConfigured = true → gw.transcribeService = Except.ok "" →
        fb.text_feedback = "[Transcription failed or audio was empty]") := by
  have hvalid : give_feedback_form_is_valid inp = true := by
    unfold give_feedback_form_is_valid give_feedback_form_errors
    simp [hmode, haudio]
  have hbmode : (base_feedback actor dept inp newId).input_method = InputMethod.AUDIO := hmode
  have hbaudio : (base_feedback actor dept inp newId).audio_feedback = true := haudio
  have hcases := transcribe_step_text_cases (base_feedback actor dept inp newId) gw hbmode hbaudio
  have htext := enrich_feedback_text (base_feedback actor dept inp newId) gw
  refine ⟨(enrich_feedback (base_feedback actor dept inp newId) gw).1, ?_, ?_, ?_, ?_, ?_⟩
  · unfold give_feedback_view
    rw [hvalid]
    rfl
  · unfold give_feedback_view
    rw [hvalid]
    rfl
  · intro hkey
    rw [htext, hcases.1 hkey]
    rfl
  · intro e hkey hsvc
    rw [htext, hcases.2.1 e hkey hsvc]
  · intro hkey hsvc
    rw [htext, hcases.2.2 hkey hsvc]

/-- Witness for C5 at a concrete AUDIO submission under a transcription
exception outcome. -/
theorem c5_witness :
    ∃ fb, (give_feedback_view [] 7 1 inpAudio gwTranscribeErr 1).state = [] ++ [fb] ∧
      (give_feedback_view [] 7 1 inpAudio gwTranscribeErr 1).success = true ∧
      (gwTranscribeErr.apiKeyConfigured = false → fb.text_feedback = inpAudio.text_feedback) ∧
      (∀ e, gwTranscribeErr.apiKeyConfigured = true →
        gwTranscribeErr.transcribeService = Except.error e →
        fb.text_feedback = "[Audio transcription failed due to an error: " ++ e ++ "]") ∧
      (gwTranscribeErr.apiKeyConfigured = true →
        gwTranscribeErr.transcribeService = Except.ok "" →
        fb.text_feedback = "[Transcription failed or audio was empty]") :=
  c5_transcription_failure_nonfatal [] 7 1 inpAudio gwTranscribeErr 1 rfl rfl

/-- C5 counterexample: on a transcription exception the stored
text_feedback is the placeholder, not the originally submitted "orig",
refuting that the field is left as submitted while a placeholder is also
recorded. -/
theorem c5_counterexample :
    ((give_feedback_view [] 7 1 inpAudio gwTranscribeErr 1).state.map
        (fun f => f.text_feedback)) =
      ["[Audio transcription failed due to an error: boom]"] ∧
    ((give_feedback_view [] 7 1 inpAudio gwTranscribeErr 1).state.map
        (fun f => f.text_feedback)) ≠ ["orig"] ∧
    inpAudio.text_feedback = "orig" := by
  refine ⟨by decide, by decide, rfl⟩

lemma sentiment_step_called (fb1 : Feedback) (t2 : String) (gw : Gateway)
    (h : ((t2 != "") && (pyStrip t2 != "")) = true) :
    (sentiment_step fb1 t2 gw).2 = some t2 := by
  unfold sentiment_step
  rw [if_pos h]
  cases hA : analyze_sentiment_with_gemini gw.apiKeyConfigured t2 gw.sentimentService with
  | none => rfl
  | some s =>
    dsimp only
    split <;> rfl

/-- C4: for every submission whose analysis text is empty after trimming
post-transcription (the text_to_analyze value after the transcription
check, whatever the input method) but which has at least one non-null
rating, give_feedback_view hands the sentiment classifier exactly the
synthetic text pairing each non-null rating with the category question
at the same slot, joined by single spaces; for ratings 5 and 4 on
TEACHING with empty text this is exactly the two expected sentences. -/
theorem c4_synthetic_text_analysis (state : List Feedback) (actor dept : Nat)
    (inp : SubmitInput) (gw : Gateway) (newId : Nat)
    (htext : pyStrip (transcribe_step (base_feedback actor dept inp newId) gw).2 = "")
    (hany : (inputRatings inp).any (fun r => r.isSome) = true) :
    (give_feedback_view state actor dept inp gw newId).analyzedText =
      some (synthetic_text inp.category (inputRatings inp)) ∧
    (give_feedback_view [] 7 1 inpRatingsOnly gwOk 1).analyzedText =
      some ("For the question 'Clarity of explanations?', the rating given was " ++
        "'Excellent'. For the question 'Instructor engagement?', the rating given was 'Good'.") := by
  constructor
  · have hvalid : give_feedback_form_is_valid inp = true := by
      unfold give_feedback_form_is_valid give_feedback_form_errors
      simp [hany]
    have hflds := transcribe_step_fields (base_feedback actor dept inp newId) gw
    have hratings : [(transcribe_step (base_feedback actor dept inp newId) gw).1.rating1,
        (transcribe_step (base_feedback actor dept inp newId) gw).1.rating2,
        (transcribe_step (base_feedback actor dept inp newId) gw).1.rating3,
        (transcribe_step (base_feedback actor dept inp newId) gw).1.rating4,
        (transcribe_step (base_feedback actor dept inp newId) gw).1.rating5] =
        inputRatings inp := by
      rw [hflds.2.2.2.2.1, hflds.2.2.2.2.2.1, hflds.2.2.2.2.2.2.1,
        hflds.2.2.2.2.2.2.2.1, hflds.2.2.2.2.2.2.2.2.1]
      rfl
    have hcat : (transcribe_step (base_feedback actor dept inp newId) gw).1.category =
        inp.category := by
      rw [hflds.2.2.1]
      rfl
    have ht2 : analysis_text (transcribe_step (base_feedback actor dept inp newId) gw).1
        (transcribe_step (base_feedback actor dept inp newId) gw).2 =
        synthetic_text inp.category (inputRatings inp) := by
      unfold analysis_text
      rw [hratings, hcat]
      rw [if_pos (And.intro (by simp [htext]) (by simpa using hany))]
    have hsynth_strip : pyStrip (synthetic_text inp.category (inputRatings inp)) ≠ "" :=
      pyStrip_synthetic_text_ne_empty hany (by rfl)
    have hsynth_ne : synthetic_text inp.category (inputRatings inp) ≠ "" :=
      ne_empty_of_pyStrip_ne_empty hsynth_strip
    unfold give_feedback_view
    rw [hvalid]
    show (enrich_feedback (base_feedback actor dept inp newId) gw).2 = _
    unfold enrich_feedback
    dsimp only
    rw [ht2]
    exact sentiment_step_called _ _ _ (by simp [hsynth_ne, hsynth_strip])
  · decide

/-- Witness for C4 at the concrete TEXT-mode scenario submission and at a
reachable AUDIO-mode submission with no audio file and one rating. -/
theorem c4_witness :
    ((give_feedback_view [] 7 1 inpRatingsOnly gwOk 1).analyzedText =
      some (synthetic_text inpRatingsOnly.category (inputRatings inpRatingsOnly)) ∧
    (give_feedback_view [] 7 1 inpRatingsOnly gwOk 1).analyzedText =
      some ("For the question 'Clarity of explanations?', the rating given was " ++
        "'Excellent'. For the question 'Instructor engagement?', the rating given was 'Good'.")) ∧
    (give_feedback_view [] 7 1 inpAudioRatingsOnly gwOk 1).analyzedText =
      some (synthetic_text inpAudioRatingsOnly.category (inputRatings inpAudioRatingsOnly)) :=
  ⟨c4_synthetic_text_analysis [] 7 1 inpRatingsOnly gwOk 1 (by decide) (by decide),
   (c4_synthetic_text_analysis [] 7 1 inpAudioRatingsOnly gwOk 1 (by decide) (by decide)).1⟩

lemma analyze_range (key : Bool) (text : String) (svc : Except String String) :
    analyze_sentiment_with_gemini key text svc = none ∨
    analyze_sentiment_with_gemini key text svc = some "POSITIVE" ∨
    analyze_sentiment_with_gemini key text svc = some "NEGATIVE" ∨
    analyze_sentiment_with_gemini key text svc = some "NEUTRAL" := by
  unfold analyze_sentiment_with_gemini
  split
  · left; rfl
  · match svc with
    | Except.error e => left; rfl
    | Except.ok reply =>
      dsimp only
      split
      case isTrue h => rcases h with h | h | h <;> rw [h] <;> tauto
      case isFalse h => right; right; right; rfl

lemma analyze_error (key : Bool) (text e : String) :
    analyze_sentiment_with_gemini key text (Except.error e) = none := by
  unfold analyze_sentiment_with_gemini
  split <;> rfl

lemma sentiment_step_sentiment_of_error (fb1 : Feedback) (t2 : String) (gw : Gateway)
    (e : String) (hsvc : gw.sentimentService = Except.error e) :
    (sentiment_step fb1 t2 gw).1.sentiment = fb1.sentiment := by
  unfold sentiment_step
  split
  · rw [hsvc, analyze_error]
  · rfl

lemma sentiment_step_sentiment_range (fb1 : Feedback) (t2 : String) (gw : Gateway) :
    (sentiment_step fb1 t2 gw).1.sentiment = fb1.sentiment ∨
    (sentiment_step fb1 t2 gw).1.sentiment = some "POSITIVE" ∨
    (sentiment_step fb1 t2 gw).1.sentiment = some "NEGATIVE" ∨
    (sentiment_step fb1 t2 gw).1.sentiment = some "NEUTRAL" := by
  unfold sentiment_step
  split
  case isTrue h =>
    cases hA : analyze_sentiment_with_gemini gw.apiKeyConfigured t2 gw.sentimentService with
    | none => left; rfl
    | some s =>
      dsimp only
      split
      case isTrue hs =>
        rcases analyze_range gw.apiKeyConfigured t2 gw.sentimentService with h0 | h1 | h2 | h3
        · rw [hA] at h0; cases h0
        · rw [hA] at h1; right; left
          simpa using congrArg (fun o => o.getD "") h1
        · rw [hA] at h2; right; right; left
          simpa using congrArg (fun o => o.getD "") h2
        · rw [hA] at h3; right; right; right
          simpa using congrArg (fun o => o.getD "") h3
      case isFalse hs => left; rfl
  case isFalse h => left; rfl

lemma enrich_feedback_sentiment_range (fb0 : Feedback) (gw : Gateway) :
    (enrich_feedback fb0 gw).1.sentiment = fb0.sentiment ∨
    (enrich_feedback fb0 gw).1.sentiment = some "POSITIVE" ∨
    (enrich_feedback fb0 gw).1.sentiment = some "NEGATIVE" ∨
    (enrich_feedback fb0 gw).1.sentiment = some "NEUTRAL" := by
  unfold enrich_feedback
  have h0 : (transcribe_step fb0 gw).1.sentiment = fb0.sentiment :=
    (transcribe_step_fields fb0 gw).2.2.2.2.2.2.2.2.2.2.2.2.2
  rcases sentiment_step_sentiment_range (transcribe_step fb0 gw).1
      (analysis_text (transcribe_step fb0 gw).1 (transcribe_step fb0 gw).2) gw with h | h | h | h
  · left; rw [h, h0]
  · right; left; exact h
  · right; right; left; exact h
  · right; right; right; exact h

/-- C3: analyze_sentiment_with_gemini only ever yields one of the three
canonical labels or none: a canonical stripped-uppercased reply is
returned as is, any other reply is coerced to NEUTRAL, and a service
exception yields none, in which case a valid submission still succeeds
with the stored sentiment staying null; every row give_feedback_view
stores carries a sentiment in {POSITIVE, NEGATIVE, NEUTRAL, null}. -/
theorem c3_sentiment_canonical :
    (∀ (key : Bool) (text : String) (svc : Except String String),
      analyze_sentiment_with_gemini key text svc = none ∨
      analyze_sentiment_with_gemini key text svc = some "POSITIVE" ∨
      analyze_sentiment_with_gemini key text svc = some "NEGATIVE" ∨
      analyze_sentiment_with_gemini key text svc = some "NEUTRAL") ∧
    (∀ (key : Bool) (text e : String),
      analyze_sentiment_with_gemini key text (Except.error e) = none) ∧
    (∀ (text reply : String), text ≠ "" →
      (pyUpper (pyStrip reply) = "POSITIVE" ∨ pyUpper (pyStrip reply) = "NEGATIVE" ∨
        pyUpper (pyStrip reply) = "NEUTRAL") →
      analyze_sentiment_with_gemini true text (Except.ok reply) =
        some (pyUpper (pyStrip reply))) ∧
    (∀ (text reply : String), text ≠ "" →
      pyUpper (pyStrip reply) ≠ "POSITIVE" → pyUpper (pyStrip reply) ≠ "NEGATIVE" →
      pyUpper (pyStrip reply) ≠ "NEUTRAL" →
      analyze_sentiment_with_gemini true text (Except.ok reply) = some "NEUTRAL") ∧
    (∀ (state : List Feedback) (actor dept : Nat) (inp : SubmitInput) (gw : Gateway)
        (newId : Nat) (e : String),
      give_feedback_form_is_valid inp = true →
      gw.sentimentService = Except.error e →
      (give_feedback_view state actor dept inp gw newId).success = true ∧
      (give_feedback_view state actor dept inp gw newId).state.map (fun f => f.sentiment) =
        state.map (fun f => f.sentiment) ++ [none]) ∧
    (∀ (state : List Feedback) (actor dept : Nat) (inp : SubmitInput) (gw : Gateway)
        (newId : Nat) (fb : Feedback),
      fb ∈ (give_feedback_view state actor dept inp gw newId).state →
      fb ∈ state ∨ fb.sentiment = none ∨ fb.sentiment = some "POSITIVE" ∨
        fb.sentiment = some "NEGATIVE" ∨ fb.sentiment = some "NEUTRAL") := by
  refine ⟨analyze_range, analyze_error, ?_, ?_, ?_, ?_⟩
  · intro text reply htext hcanon
    unfold analyze_sentiment_with_gemini
    rw [if_neg (by simp [htext])]
    dsimp only
    rw [if_pos hcanon]
  · intro text reply htext h1 h2 h3
    unfold analyze_sentiment_with_gemini
    rw [if_neg (by simp [htext])]
    dsimp only
    rw [if_neg (by tauto)]
  · intro state actor dept inp gw newId e hvalid hsvc
    have hsent : (enrich_feedback (base_feedback actor dept inp newId) gw).1.sentiment = none := by
      unfold enrich_feedback
      rw [sentiment_step_sentiment_of_error _ _ _ e hsvc]
      rw [(transcribe_step_fields _ _).2.2.2.2.2.2.2.2.2.2.2.2.2]
      rfl
    constructor
    · unfold give_feedback_view
      rw [hvalid]
      rfl
    · unfold give_feedback_view
      rw [hvalid]
      show (state ++ [(enrich_feedback (base_feedback actor dept inp newId) gw).1]).map
          (fun f => f.sentiment) = _
      rw [List.map_append]
      simp [hsent]
  · intro state actor dept inp gw newId fb hmem
    rcases give_feedback_view_state_shape state actor dept inp gw newId with h | h
    · left; rw [h] at hmem; exact hmem
    · rw [h] at hmem
      rcases List.mem_append.mp hmem with hmem' | hmem'
      · left; exact hmem'
      · right
        have hfb : fb = (enrich_feedback (base_feedback actor dept inp newId) gw).1 := by
          simpa using hmem'
        rw [hfb]
        rcases enrich_feedback_sentiment_range (base_feedback actor dept inp newId) gw
          with h0 | h0 | h0 | h0
        · left; rw [h0]; rfl
        · right; left; exact h0
        · right; right; left; exact h0
        · right; right; right; exact h0

/-- Witness for C3 at concrete classifier inputs and a concrete failing
pipeline run. -/
theorem c3_witness :
    analyze_sentiment_with_gemini true "good" (Except.ok " positive ") = some "POSITIVE" ∧
    analyze_sentiment_with_gemini true "good" (Except.ok "mixed") = some "NEUTRAL" ∧
    analyze_sentiment_with_gemini true "good" (Except.error "down") = none ∧
    (give_feedback_view [] 7 1 inpRatingsOnly gwSentimentErr 1).success = true ∧
    (give_feedback_view [] 7 1 inpRatingsOnly gwSentimentErr 1).state.map
        (fun f => f.sentiment) = [] ++ [none] := by
  have h := c3_sentiment_canonical
  have h3 := h.2.2.1 "good" " positive " (by decide) (by decide)
  have h4 := h.2.2.2.1 "good" "mixed" (by decide) (by decide) (by decide) (by decide)
  have h5 := h.2.2.2.2.1 [] 7 1 inpRatingsOnly gwSentimentErr 1 "down" (by decide) rfl
  exact ⟨by simpa using h3, by simpa using h4, h.2.1 true "good" "down", h5.1, h5.2⟩

lemma mem_F_render_feedback_entry (e : Feedback) :
    'F' ∈ (render_feedback_entry e).toList := by
  have hF : 'F' ∈ ("Feedback Entry #" : String).toList := by decide
  unfold render_feedback_entry
  dsimp only
  split <;> (simp only [toList_append, List.mem_append]; tauto)

lemma summarize_ctx_strip_ne (e : Feedback) (rest : List Feedback) :
    pyStrip (concatMapStr (fun x => render_feedback_entry x ++ "\n---\n\n") (e :: rest)) ≠ "" := by
  apply pyStrip_ne_empty_of_mem (c := 'F')
  · show 'F' ∈ ((render_feedback_entry e ++ "\n---\n\n") ++
      concatMapStr (fun x => render_feedback_entry x ++ "\n---\n\n") rest).toList
    simp only [toList_append, List.mem_append]
    exact Or.inl (Or.inl (mem_F_render_feedback_entry e))
  · decide

lemma summarize_stage_called_of_ne_nil (e : Feedback) (rest : List Feedback) (gw : Gateway) :
    (summarize_stage (e :: rest) gw).2 = true := by
  unfold summarize_stage
  rw [if_neg (summarize_ctx_strip_ne e rest)]
  cases gw.summarizeService with
  | error err => rfl
  | ok parts =>
    dsimp only
    split <;> rfl

/-- C8 (amended): summarize_feedback_view returns the nothing-to-summarize
sentinel without invoking the Gateway exactly when the selected entry
set is empty; every selected entry renders a nonempty header (entry
number, category, and Not Rated lines), so a selection of entries with
no ratings and no text still yields a nonempty context and the Gateway
is invoked. -/
theorem c8_sentinel_iff_empty_selection (entries : List Feedback) (gw : Gateway) :
    summarize_stage entries gw = (SummarizeResponse.summary NO_CONTENT_SUMMARY, false) ↔
      entries = [] := by
  constructor
  · intro h
    cases entries with
    | nil => rfl
    | cons e rest =>
      exfalso
      have h2 := congrArg Prod.snd h
      rw [summarize_stage_called_of_ne_nil e rest gw] at h2
      cases h2
  · intro h
    subst h
    rfl

/-- Witness for C8 in both directions of the equivalence. -/
theorem c8_witness :
    summarize_stage [] gwOk = (SummarizeResponse.summary NO_CONTENT_SUMMARY, false) ∧
    ¬ summarize_stage [sampleRow 1 10 CategoryName.TEACHING (some 1) none ""] gwOk =
      (SummarizeResponse.summary NO_CONTENT_SUMMARY, false) := by
  constructor
  · exact (c8_sentinel_iff_empty_selection [] gwOk).mpr rfl
  · intro h
    exact List.cons_ne_nil _ _ ((c8_sentinel_iff_empty_selection
      [sampleRow 1 10 CategoryName.TEACHING (some 1) none ""] gwOk).mp h)

/-- C8 counterexample: one selected entry with no ratings and no text
does not trigger the sentinel: the Gateway summarize call is made and
its summary is returned, refuting the claim's reading that such a
selection yields the sentinel without a Gateway call. -/
theorem c8_counterexample :
    (sampleRow 1 10 CategoryName.TEACHING (some 1) none "").rating1 = none ∧
    (sampleRow 1 10 CategoryName.TEACHING (some 1) none "").rating2 = none ∧
    (sampleRow 1 10 CategoryName.TEACHING (some 1) none "").rating3 = none ∧
    (sampleRow 1 10 CategoryName.TEACHING (some 1) none "").rating4 = none ∧
    (sampleRow 1 10 CategoryName.TEACHING (some 1) none "").rating5 = none ∧
    (sampleRow 1 10 CategoryName.TEACHING (some 1) none "").text_feedback = "" ∧
    (summarize_stage [sampleRow 1 10 CategoryName.TEACHING (some 1) none ""] gwOk).2 = true ∧
    (summarize_stage [sampleRow 1 10 CategoryName.TEACHING (some 1) none ""] gwOk).1 =
      SummarizeResponse.summary "- Point 1" ∧
    SummarizeResponse.summary "- Point 1" ≠ SummarizeResponse.summary NO_CONTENT_SUMMARY := by
  refine ⟨rfl, rfl, rfl, rfl, rfl, rfl,
    summarize_stage_called_of_ne_nil _ _ _, ?_, by decide⟩
  unfold summarize_stage
  rw [if_neg (summarize_ctx_strip_ne _ _)]
  rfl

lemma summarize_stage_ne_auth (entries : List Feedback) (gw : Gateway) :
    (summarize_stage entries gw).1 ≠ SummarizeResponse.authErrorResp := by
  unfold summarize_stage
  dsimp only
  split
  · simp
  · cases gw.summarizeService with
    | error e => simp
    | ok parts =>
      dsimp only
      split <;> simp

lemma entries_length_eq_iff (state : List Feedback) (d : Nat) (ids : List Nat)
    (hn : (state.map Feedback.id).Nodup) (hids : ids.Nodup) :
    (state.filter
        (fun f => ids.contains f.id && f.department_at_submission == some d)).length
      = ids.length ↔
    ∀ i ∈ ids, ∃ fb ∈ state, fb.id = i ∧ fb.department_at_submission = some d := by
  set E := state.filter (fun f => ids.contains f.id && f.department_at_submission == some d)
    with hE
  have hEmem : ∀ f, f ∈ E ↔ f ∈ state ∧ f.id ∈ ids ∧ f.department_at_submission = some d := by
    intro f
    rw [hE, List.mem_filter]
    simp
  have hnodupE : (E.map Feedback.id).Nodup :=
    hn.sublist ((List.filter_sublist state).map Feedback.id)
  constructor
  · intro hlen i hi
    by_contra hno
    push_neg at hno
    have hiE : i ∉ E.map Feedback.id := by
      intro hiE
      obtain ⟨f, hf, hfid⟩ := List.mem_map.mp hiE
      have hm := (hEmem f).mp hf
      exact hno f hm.1 hfid hm.2.2
    have hsub : E.map Feedback.id ⊆ ids.erase i := by
      intro x hx
      obtain ⟨f, hf, hfid⟩ := List.mem_map.mp hx
      have hm := (hEmem f).mp hf
      have hxids : x ∈ ids := by rw [← hfid]; exact hm.2.1
      have hxne : x ≠ i := by
        rintro rfl
        exact hiE hx
      exact (List.Nodup.mem_erase_iff hids).mpr ⟨hxne, hxids⟩
    have hle := (List.Nodup.subperm hnodupE hsub).length_le
    rw [List.length_map] at hle
    rw [List.length_erase_of_mem hi] at hle
    have hpos : 0 < ids.length := List.length_pos_of_mem hi
    omega
  · intro hall
    have hmm : ∀ x, x ∈ E.map Feedback.id ↔ x ∈ ids := by
      intro x
      constructor
      · intro hx
        obtain ⟨f, hf, hfid⟩ := List.mem_map.mp hx
        rw [← hfid]
        exact ((hEmem f).mp hf).2.1
      · intro hx
        obtain ⟨fb, hfb, hfbid, hfbd⟩ := hall x hx
        exact List.mem_map.mpr ⟨fb, (hEmem fb).mpr ⟨hfb, by rw [hfbid]; exact hx, hfbd⟩, hfbid⟩
    have hfs : (E.map Feedback.id).toFinset = ids.toFinset := by
      ext x
      simp only [List.mem_toFinset]
      exact hmm x
    have hc1 := List.toFinset_card_of_nodup hnodupE
    have hc2 := List.toFinset_card_of_nodup hids
    rw [hfs] at hc1
    rw [List.length_map] at hc1
    omega

/-- C2 (amended): under a duplicate-free requested id list,
summarize_feedback_view fails with the authorization error exactly when
at least one requested id is foreign or nonexistent (the check being
count equality between matching department rows and requested ids), and
on that failure no summarization output is produced at all; a duplicated
id that does belong to the department also trips the same error. -/
theorem c2_summarize_auth_iff (state : List Feedback) (coordDept : Nat) (ids : List Nat)
    (gw : Gateway) (hn : (state.map Feedback.id).Nodup) (hids : ids.Nodup)
    (hkey : gw.apiKeyConfigured = true) :
    ((summarize_feedback_view state coordDept ids gw).1 = SummarizeResponse.authErrorResp ↔
      ∃ i ∈ ids, ¬ ∃ fb ∈ state, fb.id = i ∧ fb.department_at_submission = some coordDept) ∧
    ((summarize_feedback_view state coordDept ids gw).1 = SummarizeResponse.authErrorResp →
      (summarize_feedback_view state coordDept ids gw).2 = false) := by
  unfold summarize_feedback_view
  rw [if_neg (by simp [hkey])]
  by_cases hnil : ids = []
  · subst hnil
    rw [if_pos rfl]
    constructor
    · constructor
      · intro h
        cases h
      · rintro ⟨i, hi, _⟩
        cases hi
    · intro h
      cases h
  · rw [if_neg hnil]
    dsimp only
    by_cases hlen : (state.filter
        (fun f => ids.contains f.id && f.department_at_submission == some coordDept)).length
          = ids.length
    · rw [if_neg (not_not_intro hlen)]
      constructor
      · constructor
        · intro h
          exact absurd h (summarize_stage_ne_auth _ _)
        · rintro ⟨i, hi, hno⟩
          exact absurd ((entries_length_eq_iff state coordDept ids hn hids).mp hlen i hi) hno
      · intro h
        exact absurd h (summarize_stage_ne_auth _ _)
    · rw [if_pos hlen]
      constructor
      · constructor
        · intro _
          by_contra hno
          push_neg at hno
          exact hlen ((entries_length_eq_iff state coordDept ids hn hids).mpr hno)
        · intro _
          rfl
      · intro _
        rfl

/-- Witness for C2: one nonexistent requested id against a one-row state. -/
theorem c2_witness :
    (((summarize_feedback_view [sampleRow 1 10 CategoryName.TEACHING (some 1) none "t"]
          1 [2] gwOk).1 = SummarizeResponse.authErrorResp ↔
      ∃ i ∈ [2], ¬ ∃ fb ∈ [sampleRow 1 10 CategoryName.TEACHING (some 1) none "t"],
        fb.id = i ∧ fb.department_at_submission = some 1) ∧
    ((summarize_feedback_view [sampleRow 1 10 CategoryName.TEACHING (some 1) none "t"]
          1 [2] gwOk).1 = SummarizeResponse.authErrorResp →
      (summarize_feedback_view [sampleRow 1 10 CategoryName.TEACHING (some 1) none "t"]
          1 [2] gwOk).2 = false)) :=
  c2_summarize_auth_iff [sampleRow 1 10 CategoryName.TEACHING (some 1) none "t"] 1 [2] gwOk
    (by decide) (by decide) rfl

/-- C2 counterexample: a duplicated id list [1, 1] whose only id belongs
to the coordinator's department is still rejected with the authorization
error, refuting the unrestricted only-if direction of the claim. -/
theorem c2_counterexample :
    (summarize_feedback_view [sampleRow 1 10 CategoryName.TEACHING (some 1) none "t"]
        1 [1, 1] gwOk).1 = SummarizeResponse.authErrorResp ∧
    (∀ i ∈ [1, 1], ∃ fb ∈ [sampleRow 1 10 CategoryName.TEACHING (some 1) none "t"],
      fb.id = i ∧ fb.department_at_submission = some 1) := by
  exact ⟨by decide, by decide⟩

lemma charListLe_total : ∀ a b : List Char, charListLe a b = true ∨ charListLe b a = true := by
  intro a
  induction a with
  | nil =>
    intro b
    left
    rfl
  | cons x xs ih =>
    intro b
    cases b with
    | nil =>
      right
      rfl
    | cons y ys =>
      by_cases hxy : x.toNat < y.toNat
      · left
        simp [charListLe, hxy]
      · by_cases hyx : y.toNat < x.toNat
        · right
          simp [charListLe, hyx]
        · rcases ih ys with h | h
          · left
            simp [charListLe, hxy, hyx, h]
          · right
            simp [charListLe, hxy, hyx, h]

lemma nameLe_total (a b : String) : nameLe a b = true ∨ nameLe b a = true :=
  charListLe_total a.toList b.toList

lemma ordered_insert_name_perm (a : String) (l : List String) :
    List.Perm (ordered_insert_name a l) (a :: l) := by
  induction l with
  | nil => exact List.Perm.refl _
  | cons b l ih =>
    unfold ordered_insert_name
    split
    · exact List.Perm.refl _
    · exact List.Perm.trans (List.Perm.cons b ih) (List.Perm.swap a b l)

lemma sort_names_perm (l : List String) : List.Perm (sort_names l) l := by
  induction l with
  | nil => exact List.Perm.refl _
  | cons a l ih =>
    exact List.Perm.trans (ordered_insert_name_perm a (sort_names l)) (List.Perm.cons a ih)

lemma chain'_ordered_insert (a : String) (l : List String)
    (h : List.Chain' (fun x y => nameLe x y = true) l) :
    List.Chain' (fun x y => nameLe x y = true) (ordered_insert_name a l) := by
  induction l with
  | nil => simp [ordered_insert_name]
  | cons b l ih =>
    unfold ordered_insert_name
    split
    case isTrue hab =>
      exact List.chain'_cons.mpr ⟨hab, h⟩
    case isFalse hab =>
      have hba : nameLe b a = true := by
        rcases nameLe_total a b with h1 | h1
        · exact absurd h1 hab
        · exact h1
      have hins := ih h.tail
      cases l with
      | nil =>
        simp [ordered_insert_name, List.chain'_cons, hba]
      | cons c l2 =>
        have hbc : nameLe b c = true := (List.chain'_cons.mp h).1
        unfold ordered_insert_name
        unfold ordered_insert_name at hins
        split
        case isTrue hac =>
          rw [if_pos hac] at hins
          exact List.chain'_cons.mpr ⟨hba, hins⟩
        case isFalse hac =>
          rw [if_neg hac] at hins
          exact List.chain'_cons.mpr ⟨hbc, hins⟩

lemma chain'_sort_names (l : List String) :
    List.Chain' (fun x y => nameLe x y = true) (sort_names l) := by
  induction l with
  | nil => simp [sort_names]
  | cons a l ih => exact chain'_ordered_insert a (sort_names l) ih

lemma rows_filter_pos (state : List Feedback) (dept : Nat) (k : String) :
    ((state.filter (fun f => f.department_at_submission == some dept &&
        (f.sentiment == some "POSITIVE" || f.sentiment == some "NEGATIVE"))).filter
      (fun f => categoryKey f.category == k && f.sentiment == some "POSITIVE")) =
    state.filter (fun f => f.department_at_submission == some dept &&
      f.sentiment == some "POSITIVE" && (categoryKey f.category == k)) := by
  rw [List.filter_filter]
  apply List.filter_congr
  intro f _
  cases hd : (f.department_at_submission == some dept) <;>
    cases hp : (f.sentiment == some "POSITIVE") <;>
      cases hk : (categoryKey f.category == k) <;> simp [hd, hp, hk]

lemma rows_filter_neg (state : List Feedback) (dept : Nat) (k : String) :
    ((state.filter (fun f => f.department_at_submission == some dept &&
        (f.sentiment == some "POSITIVE" || f.sentiment == some "NEGATIVE"))).filter
      (fun f => categoryKey f.category == k && f.sentiment == some "NEGATIVE")) =
    state.filter (fun f => f.department_at_submission == some dept &&
      f.sentiment == some "NEGATIVE" && (categoryKey f.category == k)) := by
  rw [List.filter_filter]
  apply List.filter_congr
  intro f _
  cases hd : (f.department_at_submission == some dept) <;>
    cases hn : (f.sentiment == some "NEGATIVE") <;>
      cases hk : (categoryKey f.category == k) <;> simp [hd, hn, hk]

/-- C9 counterexample: for the claim's scenario the aggregation omits the
LIBRARY category entirely (its only row is NEUTRAL and the sentiment
filter precedes grouping), so the result is not the claimed two-entry
list under either the display-name or the raw-name reading. -/
theorem c9_counterexample :
    sentiment_by_category analyticsState 1 = [("Teaching", 2, 1)] ∧
    sentiment_by_category analyticsState 1 ≠ [("Library", 0, 0), ("Teaching", 2, 1)] ∧
    sentiment_by_category analyticsState 1 ≠ [("LIBRARY", 0, 0), ("TEACHING", 2, 1)] := by
  exact ⟨by decide, by decide, by decide⟩

/-- C9 (amended): for every state and department, sentiment_by_category
is the map over a duplicate-free key list, sorted ascending by category
name, containing exactly the categories with at least one POSITIVE or
NEGATIVE row carrying that department snapshot (categories whose
department rows are all NEUTRAL or null are omitted, as are rows of
other departments), where each key is rendered as its display name
together with the department-scoped POSITIVE and NEGATIVE counts of
that category; the claim scenario yields exactly [(Teaching, 2, 1)],
the extended scenario [(Canteen, 1, 0), (Teaching, 2, 1)], and a
NEUTRAL-only department yields []. -/
theorem c9_sentiment_by_category_amended :
    (∀ (state : List Feedback) (dept : Nat), ∃ keys : List String,
      List.Chain' (fun a b => nameLe a b = true) keys ∧
      keys.Nodup ∧
      (∀ k, k ∈ keys ↔ ∃ fb ∈ state, fb.department_at_submission = some dept ∧
        (fb.sentiment = some "POSITIVE" ∨ fb.sentiment = some "NEGATIVE") ∧
        categoryKey fb.category = k) ∧
      sentiment_by_category state dept = keys.map (fun k =>
        (display_of_key k,
         (state.filter (fun f => f.department_at_submission == some dept &&
            f.sentiment == some "POSITIVE" && (categoryKey f.category == k))).length,
         (state.filter (fun f => f.department_at_submission == some dept &&
            f.sentiment == some "NEGATIVE" && (categoryKey f.category == k))).length))) ∧
    sentiment_by_category analyticsState 1 = [("Teaching", 2, 1)] ∧
    sentiment_by_category analyticsStateB 1 = [("Canteen", 1, 0), ("Teaching", 2, 1)] ∧
    sentiment_by_category [sampleRow 4 10 CategoryName.LIBRARY (some 1) (some "NEUTRAL") "t"]
      1 = [] := by
  refine ⟨?_, by decide, by decide, by decide⟩
  intro state dept
  refine ⟨sort_names (((state.filter (fun f => f.department_at_submission == some dept &&
      (f.sentiment == some "POSITIVE" || f.sentiment == some "NEGATIVE"))).map
      (fun f => categoryKey f.category)).dedup), ?_, ?_, ?_, ?_⟩
  · exact chain'_sort_names _
  · exact ((sort_names_perm _).nodup_iff).mpr (List.nodup_dedup _)
  · intro k
    rw [(sort_names_perm _).mem_iff, List.mem_dedup]
    constructor
    · intro hk
      obtain ⟨f, hf, hfk⟩ := List.mem_map.mp hk
      have hm := List.mem_filter.mp hf
      have hp := hm.2
      simp only [Bool.and_eq_true, Bool.or_eq_true, beq_iff_eq] at hp
      exact ⟨f, hm.1, hp.1, hp.2, hfk⟩
    · rintro ⟨fb, hfb, hd, hsent, hkey⟩
      refine List.mem_map.mpr ⟨fb, List.mem_filter.mpr ⟨hfb, ?_⟩, hkey⟩
      simp only [Bool.and_eq_true, Bool.or_eq_true, beq_iff_eq]
      exact ⟨hd, hsent⟩
  · unfold sentiment_by_category
    dsimp only
    apply List.map_congr_left
    intro k _
    rw [rows_filter_pos, rows_filter_neg]

/-- Witness for C9 instantiating the general statement at the claim's
scenario state and department. -/
theorem c9_witness :
    ∃ keys : List String,
      List.Chain' (fun a b => nameLe a b = true) keys ∧
      keys.Nodup ∧
      (∀ k, k ∈ keys ↔ ∃ fb ∈ analyticsState, fb.department_at_submission = some 1 ∧
        (fb.sentiment = some "POSITIVE" ∨ fb.sentiment = some "NEGATIVE") ∧
        categoryKey fb.category = k) ∧
      sentiment_by_category analyticsState 1 = keys.map (fun k =>
        (display_of_key k,
         (analyticsState.filter (fun f => f.department_at_submission == some 1 &&
            f.sentiment == some "POSITIVE" && (categoryKey f.category == k))).length,
         (analyticsState.filter (fun f => f.department_at_submission == some 1 &&
            f.sentiment == some "NEGATIVE" && (categoryKey f.category == k))).length)) :=
  c9_sentiment_by_category_amended.1 analyticsState 1

lemma delete_feedback_view_subset (s : List Feedback) (actor fid : Nat) :
    ∀ x ∈ (delete_feedback_view s actor fid).1, x ∈ s := by
  unfold delete_feedback_view
  cases hF : s.find? (fun f => f.id == fid) with
  | none =>
    intro x hx
    exact hx
  | some fb0 =>
    dsimp only
    split
    · intro x hx
      exact hx
    · intro x hx
      exact (List.mem_filter.mp hx).1

lemma unchanged_row_revoked {s : List Feedback} {fb fb' : Feedback} (P : Prop)
    (hn : (s.map Feedback.id).Nodup) (hm : fb ∈ s) (hfb' : fb' ∈ s) (hid : fb'.id = fb.id) :
    (fb.anonymity_revoked = true → fb'.anonymity_revoked = true) ∧
    (fb.anonymity_revoked = false → fb'.anonymity_revoked = true → P) := by
  have he : fb' = fb := eq_of_mem_nodup_ids hn hfb' hm hid
  subst he
  refine ⟨fun h => h, fun h1 h2 => ?_⟩
  rw [h1] at h2
  cases h2

/-- C7: across the feedback-mutating operations of the system
(submission, deletion, anonymity revocation), the anonymity_revoked flag
of a row present before and after an operation can only move from false
to true, never from true back to false, and a false-to-true flip happens
only through the revoke operation invoked by the owning student on that
row, which moreover requires the row to be anonymous. -/
theorem c7_anonymity_revoked_one_way (s : List Feedback) (op : Op) (fb fb' : Feedback)
    (hn : (s.map Feedback.id).Nodup) (hwf : opWF s op)
    (hm : fb ∈ s) (hm' : fb' ∈ applyOp s op) (hid : fb'.id = fb.id) :
    (fb.anonymity_revoked = true → fb'.anonymity_revoked = true) ∧
    (fb.anonymity_revoked = false → fb'.anonymity_revoked = true →
      op = Op.revoke fb.student fb.id ∧ fb.is_anonymous = true) := by
  cases op with
  | submit actor dept inp gw newId =>
    have hwf' : ∀ x ∈ s, x.id ≠ newId := hwf
    have hm2 : fb' ∈ (give_feedback_view s actor dept inp gw newId).state := hm'
    have hfb' : fb' ∈ s := by
      rcases give_feedback_view_state_shape s actor dept inp gw newId with h | h
      · rw [h] at hm2
        exact hm2
      · rw [h] at hm2
        rcases List.mem_append.mp hm2 with h1 | h1
        · exact h1
        · exfalso
          have he : fb' = (enrich_feedback (base_feedback actor dept inp newId) gw).1 := by
            simpa using h1
          have hfid : fb'.id = newId := by
            rw [he, enrich_feedback_id]
            rfl
          exact hwf' fb hm (by rw [← hid, hfid])
    exact unchanged_row_revoked _ hn hm hfb' hid
  | deleteFb actor fid =>
    have hm2 : fb' ∈ (delete_feedback_view s actor fid).1 := hm'
    exact unchanged_row_revoked _ hn hm (delete_feedback_view_subset s actor fid fb' hm2) hid
  | revoke actor fid =>
    have hm2 : fb' ∈ (revoke_anonymity_view s actor fid).1 := hm'
    unfold revoke_anonymity_view at hm2
    cases hF : s.find? (fun f => f.id == fid) with
    | none =>
      rw [hF] at hm2
      exact unchanged_row_revoked _ hn hm hm2 hid
    | some fb0 =>
      rw [hF] at hm2
      dsimp only at hm2
      by_cases hstu : fb0.student ≠ actor
      · rw [if_pos hstu] at hm2
        exact unchanged_row_revoked _ hn hm hm2 hid
      · rw [if_neg hstu] at hm2
        by_cases hanon : fb0.is_anonymous = false
        · rw [if_pos hanon] at hm2
          exact unchanged_row_revoked _ hn hm hm2 hid
        · rw [if_neg hanon] at hm2
          obtain ⟨x, hx, hgx⟩ := List.mem_map.mp hm2
          by_cases hxid : x.id = fid
          · rw [if_pos hxid] at hgx
            have hfb'id : fb'.id = x.id := by rw [← hgx]
            have hxfb : x = fb := eq_of_mem_nodup_ids hn hx hm (by rw [← hfb'id, hid])
            have hf0mem : fb0 ∈ s := List.mem_of_find?_eq_some hF
            have hf0id : fb0.id = fid := by simpa using List.find?_some hF
            have hf0fb : fb0 = fb :=
              eq_of_mem_nodup_ids hn hf0mem hm (by rw [hf0id, ← hxid, hxfb])
            have hstu' : fb0.student = actor := not_ne_iff.mp hstu
            have hanon' : fb0.is_anonymous = true := by
              cases hb : fb0.is_anonymous
              · exact absurd hb hanon
              · rfl
            refine ⟨fun _ => ?_, fun _ _ => ⟨?_, ?_⟩⟩
            · rw [← hgx]
            · rw [← hstu', ← hxid, hxfb, hf0fb]
            · rw [← hf0fb]
              exact hanon'
          · rw [if_neg hxid] at hgx
            have hxs : fb' ∈ s := by rw [← hgx]; exact hx
            exact unchanged_row_revoked _ hn hm hxs hid

/-- Witness for C7 on a concrete anonymous row, its owner, and the
revoke operation. -/
theorem c7_witness :
    (({ sampleRow 1 10 CategoryName.TEACHING (some 1) none "t" with
          is_anonymous := true } : Feedback).anonymity_revoked = true →
      ({ sampleRow 1 10 CategoryName.TEACHING (some 1) none "t" with
          is_anonymous := true, anonymity_revoked := true } : Feedback).anonymity_revoked
        = true) ∧
    (({ sampleRow 1 10 CategoryName.TEACHING (some 1) none "t" with
          is_anonymous := true } : Feedback).anonymity_revoked = false →
      ({ sampleRow 1 10 CategoryName.TEACHING (some 1) none "t" with
          is_anonymous := true, anonymity_revoked := true } : Feedback).anonymity_revoked
          = true →
      Op.revoke 10 1 = Op.revoke
          ({ sampleRow 1 10 CategoryName.TEACHING (some 1) none "t" with
              is_anonymous := true } : Feedback).student
          ({ sampleRow 1 10 CategoryName.TEACHING (some 1) none "t" with
              is_anonymous := true } : Feedback).id ∧
        ({ sampleRow 1 10 CategoryName.TEACHING (some 1) none "t" with
            is_anonymous := true } : Feedback).is_anonymous = true) :=
  c7_anonymity_revoked_one_way
    [{ sampleRow 1 10 CategoryName.TEACHING (some 1) none "t" with is_anonymous := true }]
    (Op.revoke 10 1)
    { sampleRow 1 10 CategoryName.TEACHING (some 1) none "t" with is_anonymous := true }
    { sampleRow 1 10 CategoryName.TEACHING (some 1) none "t" with
        is_anonymous := true, anonymity_revoked := true }
    (by decide) trivial (by decide) (by decide) rfl

end FeedbackPortal
